import Mathlib

/-!
Verification of the transport CA reconciliation logic and service readiness
check of the cloud-on-k8s operator.

The Go function `ReconcileOrRetrieveCA` (package `transport`) is embedded as a
pure function from an abstract driver environment to a result together with a
trace of the externally visible actions it performs, in source order.  The
collaborators that are not part of the sources (watch reconciliation, secret
fetch, CA parsing, self-signed provisioning, secret deletion) are abstracted
as fields of the driver environment; where their behaviour matters for a
claim it is modelled from the specification and marked as such.
-/

/-- A stable (namespace, name) pair identifying a cluster-scoped object. -/
structure NamespacedName where
  ns : String
  name : String
deriving DecidableEq, Repr

/-- Reference (by name) to a user-managed secret, `es.Spec.Transport.TLS.Certificate`. -/
structure SecretRef where
  secretName : String
deriving DecidableEq, Repr

/-- A stored secret: namespace, name and opaque payload. -/
structure Secret where
  ns : String
  name : String
  data : String
deriving DecidableEq, Repr

/-- A certificate authority: key pair plus root certificate (opaque here). -/
structure CA where
  cert : String
  privateKey : String
deriving DecidableEq, Repr

/-- The Elasticsearch resource fields used by `ReconcileOrRetrieveCA`. -/
structure Elasticsearch where
  ns : String
  name : String
  /-- `es.Spec.Transport.TLS.Certificate`: optional custom-CA secret reference. -/
  transportCertsRef : Option SecretRef
deriving DecidableEq, Repr

/-- `k8s.ExtractNamespacedName` applied to the Elasticsearch resource. -/
def Elasticsearch.nsn (es : Elasticsearch) : NamespacedName :=
  ⟨es.ns, es.name⟩

/-- Modelled from the spec: `esv1.ESNamer.Suffix` derives a deterministic
resource name from an object name plus a fixed purpose suffix
("Naming convention for deterministic resource names: ... derived from the
cluster identity plus a fixed purpose suffix").  The namer is not part of the
sources; it is modelled as concatenation with the operator infix. -/
def ESNamer.Suffix (name sfx : String) : String :=
  name ++ "-es-" ++ sfx

/-- `CustomTransportCertsWatchKey`: watch key for the custom transport
certificate subscription.  Note the source passes only `es.Name` to the namer. -/
def CustomTransportCertsWatchKey (es : NamespacedName) : String :=
  ESNamer.Suffix es.name "custom-transport-certs"

/-- `certificates.TransportCAType`. -/
def TransportCAType : String := "transport"

/-- Modelled from the spec: `certificates.CAInternalSecretName` — the
deterministic name of the operator-owned self-signed CA secret, derived from
the owner name and the CA type via the namer.  Not part of the sources. -/
def CAInternalSecretName (ownerName caType : String) : String :=
  ESNamer.Suffix ownerName (caType ++ "-ca")

/-- Event severity, `corev1.EventTypeWarning` / `corev1.EventTypeNormal`. -/
inductive EventType where
  | Warning
  | Normal
deriving DecidableEq, Repr

/-- `events.EventReasonUnexpected`. -/
def EventReasonUnexpected : String := "Unexpected"

/-- `events.EventReasonValidation`. -/
def EventReasonValidation : String := "Validation"

/-- An event emitted to the event sink: (severity, reason, message). -/
structure Event where
  etype : EventType
  reason : String
  message : String
deriving DecidableEq, Repr

/-- An externally visible action performed by a reconciliation pass,
recorded in source order. -/
inductive PassAction where
  /-- `certificates.ReconcileCustomCertWatch` with the given key, owner and reference. -/
  | reconcileWatch (key : String) (owner : NamespacedName) (ref : Option SecretRef)
  /-- `certificates.GetSecretFromRef`: fetch of the referenced custom CA secret. -/
  | getSecret (owner : NamespacedName) (ref : Option SecretRef)
  /-- `driver.Recorder().Eventf`: an event emitted to the event sink. -/
  | emitEvent (e : Event)
  /-- `certificates.ReconcileCAForOwner`: the self-signed CA provisioner runs
  (it may read, create or update the self-signed CA secret). -/
  | provisionSelfSigned (owner : NamespacedName)
  /-- `driver.K8sClient().Delete` of the secret with the given coordinates. -/
  | deleteSecret (ns name : String)
  /-- `log.Info`. -/
  | logInfo (msg : String)
deriving DecidableEq, Repr

/-- Outcome of the garbage-collection `Delete` call, as discriminated by the
source via `apierrors.IsNotFound`. -/
inductive DeleteOutcome where
  | ok
  | notFound
  | failed (msg : String)
deriving DecidableEq, Repr

/-- The abstract driver environment: fixed behaviour of the collaborators the
pass interacts with.  Each field abstracts a function that is not part of the
sources. -/
structure Driver where
  /-- Outcome of `certificates.ReconcileCustomCertWatch` (none = success). -/
  watchErr : Option String
  /-- Secrets currently present in the store, consulted by the fetch. -/
  secrets : List Secret
  /-- Transient backend failure of the fetch (none = store reachable). -/
  storeGetErr : Option String
  /-- `certificates.ParseCustomCASecret`. -/
  parseCustomCASecret : Secret → Except String CA
  /-- Result of `certificates.ReconcileCAForOwner` (the self-signed provisioner). -/
  reconcileCAForOwner : Except String CA
  /-- Outcome of the garbage-collection delete of the self-signed CA secret. -/
  deleteOutcome : DeleteOutcome

/-- The log message of a failed garbage-collection delete. -/
def gcLogMsg (msg : String) : String :=
  "Failed to garbage collect self-signed transport CA secret, non-critical, continuing: " ++ msg

/-- Look up a secret by namespace and name in the store. -/
def findSecret (secrets : List Secret) (ns name : String) : Option Secret :=
  secrets.find? (fun s => s.ns == ns && s.name == name)

/-- Modelled from the spec: `certificates.GetSecretFromRef` (not part of the
sources).  "If `reference` is nil/absent: returns `absent`, no error"; backend
unavailability is an error; a present reference whose target secret does not
exist is an error ("a dangling reference indicates probable misconfiguration");
a fetched secret is returned. -/
def GetSecretFromRef (d : Driver) (owner : NamespacedName) (ref : Option SecretRef) :
    Except String (Option Secret) :=
  match ref with
  | none => .ok none
  | some r =>
    match d.storeGetErr with
    | some e => .error e
    | none =>
      match findSecret d.secrets owner.ns r.secretName with
      | some s => .ok (some s)
      | none => .error ("secret " ++ r.secretName ++ " not found")

/-- `ReconcileOrRetrieveCA`: either reconciles the operator's self-signed CA
or retrieves the user-defined custom CA, following the source control flow:
watch reconciliation, custom-secret fetch, precedence custom > shared global >
self-signed, and best-effort garbage collection on the custom path.  Returns
the result together with the trace of actions of the pass. -/
def ReconcileOrRetrieveCA (d : Driver) (es : Elasticsearch) (globalCA : Option CA) :
    Except String CA × List PassAction :=
  let esNSN := es.nsn
  let watchAct := PassAction.reconcileWatch (CustomTransportCertsWatchKey esNSN) esNSN
    es.transportCertsRef
  match d.watchErr with
  | some e => (.error e, [watchAct])
  | none =>
    let fetchAct := PassAction.getSecret esNSN es.transportCertsRef
    match GetSecretFromRef d esNSN es.transportCertsRef with
    | .error e =>
      (.error e, [watchAct, fetchAct,
        .emitEvent ⟨.Warning, EventReasonUnexpected, e⟩])
    | .ok none =>
      match globalCA with
      | some ca => (.ok ca, [watchAct, fetchAct])
      | none =>
        (d.reconcileCAForOwner, [watchAct, fetchAct, .provisionSelfSigned esNSN])
    | .ok (some customCASecret) =>
      match d.parseCustomCASecret customCASecret with
      | .error e =>
        (.error e, [watchAct, fetchAct,
          .emitEvent ⟨.Warning, EventReasonValidation, e⟩])
      | .ok ca =>
        let delAct := PassAction.deleteSecret esNSN.ns
          (CAInternalSecretName esNSN.name TransportCAType)
        match d.deleteOutcome with
        | .ok => (.ok ca, [watchAct, fetchAct, delAct])
        | .notFound => (.ok ca, [watchAct, fetchAct, delAct])
        | .failed msg =>
          (.ok ca, [watchAct, fetchAct, delAct, .logInfo (gcLogMsg msg)])

/-- The events emitted along a trace. -/
def eventsOf (tr : List PassAction) : List Event :=
  tr.filterMap (fun a => match a with | .emitEvent e => some e | _ => none)

/-- The store-mutating actions of a trace: deletes and runs of the self-signed
provisioner (the only action that may create or update a secret). -/
def writesOf (tr : List PassAction) : List PassAction :=
  tr.filter (fun a =>
    match a with
    | .deleteSecret _ _ => true
    | .provisionSelfSigned _ => true
    | _ => false)

/-- The delete actions of a trace. -/
def deletesOf (tr : List PassAction) : List PassAction :=
  tr.filter (fun a => match a with | .deleteSecret _ _ => true | _ => false)

/-- The log entries of a trace. -/
def logsOf (tr : List PassAction) : List String :=
  tr.filterMap (fun a => match a with | .logInfo m => some m | _ => none)

/-! ## Service readiness (`services.go`) -/

/-- `corev1.EndpointSubset`: only the `Addresses` field matters here. -/
structure EndpointSubset where
  addresses : List String
deriving DecidableEq, Repr

/-- `corev1.Endpoints`. -/
structure Endpoints where
  subsets : List EndpointSubset
deriving DecidableEq, Repr

/-- The `corev1.Service` fields used by `IsServiceReady`. -/
structure Service where
  ns : String
  name : String
deriving DecidableEq, Repr

/-- The `for` loop of `IsServiceReady`: returns true at the first subset with
a non-empty `Addresses` list. -/
def hasReadyEndpoint : List EndpointSubset → Bool
  | [] => false
  | subs :: rest =>
    if subs.addresses.length > 0 then true else hasReadyEndpoint rest

/-- `IsServiceReady`: checks whether a service has one or more ready
endpoints.  The k8s client `Get` is abstracted as a function from the
namespaced name to either the `Endpoints` object or an error. -/
def IsServiceReady (get : NamespacedName → Except String Endpoints)
    (service : Service) : Bool × Option String :=
  let namespacedName : NamespacedName := ⟨service.ns, service.name⟩
  match get namespacedName with
  | .error e => (false, some e)
  | .ok endpoints =>
    if hasReadyEndpoint endpoints.subsets then (true, none) else (false, none)

/-! ## Concrete fixtures shared by the witnesses and counterexamples -/

/-- A custom CA as parsed from the user-provided secret. -/
def exCustomCA : CA := ⟨"custom-cert", "custom-key"⟩

/-- A shared (global) CA supplied by the caller. -/
def exSharedCA : CA := ⟨"shared-cert", "shared-key"⟩

/-- The self-signed CA produced by the provisioner. -/
def exSelfSignedCA : CA := ⟨"self-cert", "self-key"⟩

/-- A well-formed custom CA secret present in the store. -/
def exSecret : Secret := ⟨"ns", "my-ca", "pem-bytes"⟩

/-- A concrete parser: accepts exactly the payload of `exSecret`. -/
def exParse (s : Secret) : Except String CA :=
  if s.data == "pem-bytes" then .ok exCustomCA else .error "cannot parse CA certificate"

/-- A driver in which every collaborator succeeds. -/
def exDriver : Driver :=
  ⟨none, [exSecret], none, exParse, .ok exSelfSignedCA, .ok⟩

/-- An Elasticsearch resource referencing the custom CA secret. -/
def exES : Elasticsearch := ⟨"ns", "escluster", some ⟨"my-ca"⟩⟩

/-- An Elasticsearch resource with no custom CA reference. -/
def exESNoRef : Elasticsearch := ⟨"ns", "escluster", none⟩

/-! ## Theorems -/

/-- C5: if reconciling the dynamic watch fails, `ReconcileOrRetrieveCA` returns
that error immediately: the pass consists of the watch-reconciliation action
alone — no CA is returned, no secret is fetched, parsed, created or deleted,
and no event is emitted. -/
theorem reconcileOrRetrieveCA_watch_failure (d : Driver) (es : Elasticsearch)
    (globalCA : Option CA) (e : String) (hw : d.watchErr = some e) :
    ReconcileOrRetrieveCA d es globalCA =
      (.error e,
       [.reconcileWatch (CustomTransportCertsWatchKey es.nsn) es.nsn es.transportCertsRef]) := by
  simp [ReconcileOrRetrieveCA, hw]

/-- Witness for C5 at a concrete driver whose watch reconciliation fails. -/
theorem reconcileOrRetrieveCA_watch_failure_witness :
    ReconcileOrRetrieveCA ⟨some "watch failed", [exSecret], none, exParse, .ok exSelfSignedCA, .ok⟩
      exES none =
      (.error "watch failed",
       [.reconcileWatch (CustomTransportCertsWatchKey exES.nsn) exES.nsn exES.transportCertsRef]) :=
  reconcileOrRetrieveCA_watch_failure
    ⟨some "watch failed", [exSecret], none, exParse, .ok exSelfSignedCA, .ok⟩
    exES none "watch failed" rfl

/-- C1: in a pass where the watch reconciliation succeeds and the custom-secret
fetch succeeds, exactly one source is authoritative, with precedence
custom > shared > self-signed: a present and validly parsed custom CA secret
yields that CA; otherwise a supplied shared CA yields the shared CA; otherwise
the result is the self-signed provisioner's result. -/
theorem reconcileOrRetrieveCA_precedence (d : Driver) (es : Elasticsearch)
    (globalCA : Option CA) (hw : d.watchErr = none) :
    (∀ s ca, GetSecretFromRef d es.nsn es.transportCertsRef = .ok (some s) →
      d.parseCustomCASecret s = .ok ca →
      (ReconcileOrRetrieveCA d es globalCA).1 = .ok ca) ∧
    (∀ ca, GetSecretFromRef d es.nsn es.transportCertsRef = .ok none →
      globalCA = some ca →
      (ReconcileOrRetrieveCA d es globalCA).1 = .ok ca) ∧
    (GetSecretFromRef d es.nsn es.transportCertsRef = .ok none → globalCA = none →
      (ReconcileOrRetrieveCA d es globalCA).1 = d.reconcileCAForOwner) := by
  refine ⟨fun s ca hfetch hparse => ?_, fun ca hfetch hca => ?_, fun hfetch hca => ?_⟩
  · simp only [ReconcileOrRetrieveCA, hw, hfetch, hparse]
    cases d.deleteOutcome <;> rfl
  · simp [ReconcileOrRetrieveCA, hw, hfetch, hca]
  · simp [ReconcileOrRetrieveCA, hw, hfetch, hca]

/-- Witness for C1: at concrete inputs, each of the three precedence branches
produces the stated CA. -/
theorem reconcileOrRetrieveCA_precedence_witness :
    (ReconcileOrRetrieveCA exDriver exES none).1 = .ok exCustomCA ∧
    (ReconcileOrRetrieveCA exDriver exESNoRef (some exSharedCA)).1 = .ok exSharedCA ∧
    (ReconcileOrRetrieveCA exDriver exESNoRef none).1 = exDriver.reconcileCAForOwner :=
  ⟨(reconcileOrRetrieveCA_precedence exDriver exES none rfl).1 exSecret exCustomCA rfl rfl,
   (reconcileOrRetrieveCA_precedence exDriver exESNoRef (some exSharedCA) rfl).2.1
     exSharedCA rfl rfl,
   (reconcileOrRetrieveCA_precedence exDriver exESNoRef none rfl).2.2 rfl rfl⟩

/-- C2: when the fetched custom CA secret fails to parse, exactly one warning
event of validation category carrying the parse error message is emitted, the
parse error is returned, and the pass performs no store write (no secret
created, modified or deleted). -/
theorem reconcileOrRetrieveCA_parse_failure (d : Driver) (es : Elasticsearch)
    (globalCA : Option CA) (s : Secret) (e : String) (hw : d.watchErr = none)
    (hfetch : GetSecretFromRef d es.nsn es.transportCertsRef = .ok (some s))
    (hparse : d.parseCustomCASecret s = .error e) :
    (ReconcileOrRetrieveCA d es globalCA).1 = .error e ∧
    eventsOf (ReconcileOrRetrieveCA d es globalCA).2 =
      [⟨.Warning, EventReasonValidation, e⟩] ∧
    writesOf (ReconcileOrRetrieveCA d es globalCA).2 = [] := by
  simp [ReconcileOrRetrieveCA, hw, hfetch, hparse, eventsOf, writesOf]

/-- Witness for C2 at a concrete driver holding an unparseable secret. -/
theorem reconcileOrRetrieveCA_parse_failure_witness :
    (ReconcileOrRetrieveCA ⟨none, [⟨"ns", "my-ca", "garbage"⟩], none, exParse,
        .ok exSelfSignedCA, .ok⟩ exES none).1 = .error "cannot parse CA certificate" ∧
    eventsOf (ReconcileOrRetrieveCA ⟨none, [⟨"ns", "my-ca", "garbage"⟩], none, exParse,
        .ok exSelfSignedCA, .ok⟩ exES none).2 =
      [⟨.Warning, EventReasonValidation, "cannot parse CA certificate"⟩] ∧
    writesOf (ReconcileOrRetrieveCA ⟨none, [⟨"ns", "my-ca", "garbage"⟩], none, exParse,
        .ok exSelfSignedCA, .ok⟩ exES none).2 = [] :=
  reconcileOrRetrieveCA_parse_failure
    ⟨none, [⟨"ns", "my-ca", "garbage"⟩], none, exParse, .ok exSelfSignedCA, .ok⟩
    exES none ⟨"ns", "my-ca", "garbage"⟩ "cannot parse CA certificate" rfl rfl rfl

/-- C3: when a custom CA reference is configured but the referenced secret is
absent from the (reachable) store, the pass returns an error, emits exactly one
warning event for it, and performs no store write. -/
theorem reconcileOrRetrieveCA_missing_secret (d : Driver) (es : Elasticsearch)
    (globalCA : Option CA) (r : SecretRef) (hw : d.watchErr = none)
    (href : es.transportCertsRef = some r) (hstore : d.storeGetErr = none)
    (hmiss : findSecret d.secrets es.ns r.secretName = none) :
    (ReconcileOrRetrieveCA d es globalCA).1 =
      .error ("secret " ++ r.secretName ++ " not found") ∧
    eventsOf (ReconcileOrRetrieveCA d es globalCA).2 =
      [⟨.Warning, EventReasonUnexpected, "secret " ++ r.secretName ++ " not found"⟩] ∧
    writesOf (ReconcileOrRetrieveCA d es globalCA).2 = [] := by
  simp [ReconcileOrRetrieveCA, GetSecretFromRef, hw, href, hstore, Elasticsearch.nsn,
    hmiss, eventsOf, writesOf]

/-- Witness for C3 at a concrete driver whose store lacks the referenced secret. -/
theorem reconcileOrRetrieveCA_missing_secret_witness :
    (ReconcileOrRetrieveCA ⟨none, [], none, exParse, .ok exSelfSignedCA, .ok⟩ exES none).1 =
      .error ("secret " ++ "my-ca" ++ " not found") ∧
    eventsOf (ReconcileOrRetrieveCA ⟨none, [], none, exParse, .ok exSelfSignedCA, .ok⟩
        exES none).2 =
      [⟨.Warning, EventReasonUnexpected, "secret " ++ "my-ca" ++ " not found"⟩] ∧
    writesOf (ReconcileOrRetrieveCA ⟨none, [], none, exParse, .ok exSelfSignedCA, .ok⟩
        exES none).2 = [] :=
  reconcileOrRetrieveCA_missing_secret
    ⟨none, [], none, exParse, .ok exSelfSignedCA, .ok⟩ exES none ⟨"my-ca"⟩ rfl rfl rfl rfl

/-- C4: when the custom CA secret is present and parses successfully, exactly
one garbage-collection delete of the deterministic self-signed CA secret is
attempted; a NotFound delete result produces no log entry (treated as
success), any other delete failure is only logged; and in every case the pass
returns the parsed custom CA with no error, independently of the
garbage-collection outcome. -/
theorem reconcileOrRetrieveCA_gc (d : Driver) (es : Elasticsearch)
    (globalCA : Option CA) (s : Secret) (ca : CA) (hw : d.watchErr = none)
    (hfetch : GetSecretFromRef d es.nsn es.transportCertsRef = .ok (some s))
    (hparse : d.parseCustomCASecret s = .ok ca) :
    (ReconcileOrRetrieveCA d es globalCA).1 = .ok ca ∧
    deletesOf (ReconcileOrRetrieveCA d es globalCA).2 =
      [.deleteSecret es.ns (CAInternalSecretName es.name TransportCAType)] ∧
    (d.deleteOutcome = .ok ∨ d.deleteOutcome = .notFound →
      logsOf (ReconcileOrRetrieveCA d es globalCA).2 = []) ∧
    (∀ msg, d.deleteOutcome = .failed msg →
      logsOf (ReconcileOrRetrieveCA d es globalCA).2 = [gcLogMsg msg]) := by
  refine ⟨?_, ?_, ?_, ?_⟩
  · simp only [ReconcileOrRetrieveCA, hw, hfetch, hparse]
    cases d.deleteOutcome <;> rfl
  · simp only [ReconcileOrRetrieveCA, hw, hfetch, hparse]
    cases d.deleteOutcome <;> simp [deletesOf, Elasticsearch.nsn]
  · intro hdel
    simp only [ReconcileOrRetrieveCA, hw, hfetch, hparse]
    rcases hdel with h | h <;> rw [h] <;> simp [logsOf]
  · intro msg hdel
    simp only [ReconcileOrRetrieveCA, hw, hfetch, hparse]
    rw [hdel]
    simp [logsOf]

/-- Witness for C4 at a concrete driver whose garbage-collection delete fails
with an error other than NotFound; the custom CA is still returned. -/
theorem reconcileOrRetrieveCA_gc_witness :
    (ReconcileOrRetrieveCA ⟨none, [exSecret], none, exParse, .ok exSelfSignedCA,
        .failed "forbidden"⟩ exES none).1 = .ok exCustomCA ∧
    deletesOf (ReconcileOrRetrieveCA ⟨none, [exSecret], none, exParse, .ok exSelfSignedCA,
        .failed "forbidden"⟩ exES none).2 =
      [.deleteSecret exES.ns (CAInternalSecretName exES.name TransportCAType)] ∧
    logsOf (ReconcileOrRetrieveCA ⟨none, [exSecret], none, exParse, .ok exSelfSignedCA,
        .failed "forbidden"⟩ exES none).2 = [gcLogMsg "forbidden"] := by
  have h := reconcileOrRetrieveCA_gc
    ⟨none, [exSecret], none, exParse, .ok exSelfSignedCA, .failed "forbidden"⟩
    exES none exSecret exCustomCA rfl rfl rfl
  exact ⟨h.1, h.2.1, h.2.2.2 "forbidden" rfl⟩

/-- C8: when a shared global CA is supplied and no custom CA reference is
configured, the returned CA is the shared CA and the pass performs no store
write — in particular no self-signed CA secret is created or updated and no
delete is attempted. -/
theorem reconcileOrRetrieveCA_shared (d : Driver) (es : Elasticsearch)
    (globalCA : Option CA) (ca : CA) (hw : d.watchErr = none)
    (href : es.transportCertsRef = none) (hca : globalCA = some ca) :
    (ReconcileOrRetrieveCA d es globalCA).1 = .ok ca ∧
    writesOf (ReconcileOrRetrieveCA d es globalCA).2 = [] := by
  simp [ReconcileOrRetrieveCA, GetSecretFromRef, hw, href, hca, writesOf]

/-- Witness for C8 at a concrete driver with a shared CA and no reference. -/
theorem reconcileOrRetrieveCA_shared_witness :
    (ReconcileOrRetrieveCA exDriver exESNoRef (some exSharedCA)).1 = .ok exSharedCA ∧
    writesOf (ReconcileOrRetrieveCA exDriver exESNoRef (some exSharedCA)).2 = [] :=
  reconcileOrRetrieveCA_shared exDriver exESNoRef (some exSharedCA) exSharedCA rfl rfl rfl

/-- C6 counterexample: in a pass whose custom-secret fetch fails with a
transient backend error ("deadline exceeded"), the error is propagated
unchanged, but — contrary to the claim that no event is emitted — a warning
event carrying the error is emitted to the event sink. -/
theorem reconcileOrRetrieveCA_transient_event_emitted :
    (ReconcileOrRetrieveCA ⟨none, [exSecret], some "deadline exceeded", exParse,
        .ok exSelfSignedCA, .ok⟩ exES none).1 = .error "deadline exceeded" ∧
    eventsOf (ReconcileOrRetrieveCA ⟨none, [exSecret], some "deadline exceeded", exParse,
        .ok exSelfSignedCA, .ok⟩ exES none).2 =
      [⟨.Warning, EventReasonUnexpected, "deadline exceeded"⟩] :=
  ⟨rfl, rfl⟩

/-- C6 (amended): a transient fetch error is propagated to the caller
unchanged, exactly one warning event of reason Unexpected carrying the error
message is emitted, and the pass performs no store write. -/
theorem reconcileOrRetrieveCA_transient_error (d : Driver) (es : Elasticsearch)
    (globalCA : Option CA) (r : SecretRef) (e : String) (hw : d.watchErr = none)
    (href : es.transportCertsRef = some r) (htrans : d.storeGetErr = some e) :
    (ReconcileOrRetrieveCA d es globalCA).1 = .error e ∧
    eventsOf (ReconcileOrRetrieveCA d es globalCA).2 =
      [⟨.Warning, EventReasonUnexpected, e⟩] ∧
    writesOf (ReconcileOrRetrieveCA d es globalCA).2 = [] := by
  simp [ReconcileOrRetrieveCA, GetSecretFromRef, hw, href, htrans, eventsOf, writesOf]

/-- Witness for amended C6 at a concrete driver with an unreachable store. -/
theorem reconcileOrRetrieveCA_transient_error_witness :
    (ReconcileOrRetrieveCA ⟨none, [exSecret], some "store unavailable", exParse,
        .ok exSelfSignedCA, .ok⟩ exES none).1 = .error "store unavailable" ∧
    eventsOf (ReconcileOrRetrieveCA ⟨none, [exSecret], some "store unavailable", exParse,
        .ok exSelfSignedCA, .ok⟩ exES none).2 =
      [⟨.Warning, EventReasonUnexpected, "store unavailable"⟩] ∧
    writesOf (ReconcileOrRetrieveCA ⟨none, [exSecret], some "store unavailable", exParse,
        .ok exSelfSignedCA, .ok⟩ exES none).2 = [] :=
  reconcileOrRetrieveCA_transient_error
    ⟨none, [exSecret], some "store unavailable", exParse, .ok exSelfSignedCA, .ok⟩
    exES none ⟨"my-ca"⟩ "store unavailable" rfl rfl rfl

/-- Appending the same fixed suffix to two names yields equal results only for
equal names. -/
theorem ESNamer.Suffix_inj (a b sfx : String)
    (h : ESNamer.Suffix a sfx = ESNamer.Suffix b sfx) : a = b := by
  unfold ESNamer.Suffix at h
  have hd : (a ++ "-es-" ++ sfx).data = (b ++ "-es-" ++ sfx).data := by rw [h]
  simp only [String.data_append] at hd
  exact String.ext (List.append_cancel_right (List.append_cancel_right hd))

/-- C7 counterexample: two distinct cluster identities differing only in
namespace receive the same watch key — the key derivation uses only the
cluster name, not the full (namespace, name) identity. -/
theorem customTransportCertsWatchKey_namespace_collision :
    (⟨"ns-a", "cluster"⟩ : NamespacedName) ≠ (⟨"ns-b", "cluster"⟩ : NamespacedName) ∧
    CustomTransportCertsWatchKey ⟨"ns-a", "cluster"⟩ =
      CustomTransportCertsWatchKey ⟨"ns-b", "cluster"⟩ :=
  ⟨by decide, rfl⟩

/-- C7 (amended): the watch key is derived deterministically from the cluster
NAME plus a fixed purpose suffix: identities with equal names get identical
keys (in particular the key is identical across passes for the same identity),
and identities with distinct names get distinct keys. -/
theorem customTransportCertsWatchKey_name_determined (a b : NamespacedName) :
    (a.name = b.name → CustomTransportCertsWatchKey a = CustomTransportCertsWatchKey b) ∧
    (a.name ≠ b.name → CustomTransportCertsWatchKey a ≠ CustomTransportCertsWatchKey b) := by
  constructor
  · intro h
    unfold CustomTransportCertsWatchKey
    rw [h]
  · intro h hk
    exact h (ESNamer.Suffix_inj _ _ _ hk)

/-- Witness for amended C7: equal names give equal keys, distinct names give
distinct keys, at concrete identities. -/
theorem customTransportCertsWatchKey_name_determined_witness :
    CustomTransportCertsWatchKey ⟨"ns-a", "cluster"⟩ =
      CustomTransportCertsWatchKey ⟨"ns-b", "cluster"⟩ ∧
    CustomTransportCertsWatchKey ⟨"ns", "alpha"⟩ ≠
      CustomTransportCertsWatchKey ⟨"ns", "beta"⟩ :=
  ⟨(customTransportCertsWatchKey_name_determined ⟨"ns-a", "cluster"⟩ ⟨"ns-b", "cluster"⟩).1 rfl,
   (customTransportCertsWatchKey_name_determined ⟨"ns", "alpha"⟩ ⟨"ns", "beta"⟩).2
     (by decide)⟩

/-- C9: on every invocation, the dynamic-watch reconciliation is the first
action of the pass; the custom-secret fetch is the second action whenever the
watch reconciliation succeeds; and when it fails the pass consists of the
watch action alone — so every return path other than the watch-failure one has
the watch registration already reconciled before anything else happens. -/
theorem reconcileOrRetrieveCA_watch_first (d : Driver) (es : Elasticsearch)
    (globalCA : Option CA) :
    (ReconcileOrRetrieveCA d es globalCA).2.head? =
      some (.reconcileWatch (CustomTransportCertsWatchKey es.nsn) es.nsn
        es.transportCertsRef) ∧
    (d.watchErr = none →
      (ReconcileOrRetrieveCA d es globalCA).2[1]? =
        some (.getSecret es.nsn es.transportCertsRef)) ∧
    (∀ e, d.watchErr = some e →
      (ReconcileOrRetrieveCA d es globalCA).2 =
        [.reconcileWatch (CustomTransportCertsWatchKey es.nsn) es.nsn
          es.transportCertsRef]) := by
  cases hw : d.watchErr with
  | some e => simp [ReconcileOrRetrieveCA, hw]
  | none =>
    cases hf : GetSecretFromRef d es.nsn es.transportCertsRef with
    | error e => simp [ReconcileOrRetrieveCA, hw, hf]
    | ok o =>
      cases o with
      | none => cases globalCA <;> simp [ReconcileOrRetrieveCA, hw, hf]
      | some s =>
        cases hp : d.parseCustomCASecret s with
        | error e => simp [ReconcileOrRetrieveCA, hw, hf, hp]
        | ok ca =>
          simp only [ReconcileOrRetrieveCA, hw, hf, hp]
          cases d.deleteOutcome <;> simp

/-- Witness for C9 at a concrete driver: the watch action comes first and the
fetch second. -/
theorem reconcileOrRetrieveCA_watch_first_witness :
    (ReconcileOrRetrieveCA exDriver exES none).2.head? =
      some (.reconcileWatch (CustomTransportCertsWatchKey exES.nsn) exES.nsn
        exES.transportCertsRef) ∧
    (ReconcileOrRetrieveCA exDriver exES none).2[1]? =
      some (.getSecret exES.nsn exES.transportCertsRef) :=
  ⟨(reconcileOrRetrieveCA_watch_first exDriver exES none).1,
   (reconcileOrRetrieveCA_watch_first exDriver exES none).2.1 rfl⟩

/-- The readiness loop finds a subset with a non-empty address list exactly
when one exists. -/
theorem hasReadyEndpoint_iff (l : List EndpointSubset) :
    hasReadyEndpoint l = true ↔ ∃ subs ∈ l, subs.addresses ≠ [] := by
  induction l with
  | nil => simp [hasReadyEndpoint]
  | cons x xs ih =>
    by_cases hx : x.addresses.length > 0
    · have hne : x.addresses ≠ [] := by
        intro h
        rw [h] at hx
        simp at hx
      simp [hasReadyEndpoint, hx, hne]
    · have hnil : x.addresses = [] := by
        cases h : x.addresses with
        | nil => rfl
        | cons a as =>
          rw [h] at hx
          simp at hx
      simp [hasReadyEndpoint, hx, ih, hnil]

/-- C10: `IsServiceReady` returns (false, the error) whenever fetching the
Endpoints object named after the service fails; on a successful fetch it
returns (true, nil) exactly when some endpoint subset has a non-empty address
list, and (false, nil) exactly when every subset (possibly none) has an empty
address list. -/
theorem isServiceReady_spec (get : NamespacedName → Except String Endpoints)
    (svc : Service) :
    (∀ e, get ⟨svc.ns, svc.name⟩ = .error e →
      IsServiceReady get svc = (false, some e)) ∧
    (∀ eps, get ⟨svc.ns, svc.name⟩ = .ok eps →
      ((IsServiceReady get svc = (true, none) ↔
          ∃ subs ∈ eps.subsets, subs.addresses ≠ []) ∧
       (IsServiceReady get svc = (false, none) ↔
          ∀ subs ∈ eps.subsets, subs.addresses = []))) := by
  refine ⟨fun e he => ?_, fun eps he => ⟨?_, ?_⟩⟩
  · simp [IsServiceReady, he]
  · rw [← hasReadyEndpoint_iff]
    by_cases h : hasReadyEndpoint eps.subsets = true <;>
      simp [IsServiceReady, he, h]
  · by_cases h : hasReadyEndpoint eps.subsets = true
    · simp only [IsServiceReady, he, h, if_true]
      obtain ⟨subs, hmem, hne⟩ := (hasReadyEndpoint_iff eps.subsets).mp h
      constructor
      · intro hcontra
        exact absurd hcontra (by simp)
      · intro hall
        exact absurd (hall subs hmem) hne
    · simp only [IsServiceReady, he, h, if_false]
      constructor
      · intro _ subs hmem
        by_contra hne
        exact h ((hasReadyEndpoint_iff eps.subsets).mpr ⟨subs, hmem, hne⟩)
      · intro _
        rfl

/-- A concrete Endpoints object with one empty and one non-empty subset. -/
def exEndpoints : Endpoints := ⟨[⟨[]⟩, ⟨["10.0.0.1"]⟩]⟩

/-- A concrete client: knows the endpoints of service "essvc" only. -/
def exGet (n : NamespacedName) : Except String Endpoints :=
  if n.name == "essvc" then .ok exEndpoints else .error "endpoints not found"

/-- Witness for C10 at a concrete client: a ready service and a failing fetch. -/
theorem isServiceReady_spec_witness :
    IsServiceReady exGet ⟨"ns", "essvc"⟩ = (true, none) ∧
    IsServiceReady exGet ⟨"ns", "other"⟩ = (false, some "endpoints not found") :=
  ⟨((isServiceReady_spec exGet ⟨"ns", "essvc"⟩).2 exEndpoints rfl).1.mpr
     ⟨⟨["10.0.0.1"]⟩, by decide, by decide⟩,
   (isServiceReady_spec exGet ⟨"ns", "other"⟩).1 "endpoints not found" rfl⟩
